import Mathlib

/-!
Verification of the coordinate engine of the `analiza_permiso` repository
(`CoordinateUtils`): UTM to geographic conversion, geographic to UTM
conversion, polygon centroid, Haversine distance and the two range
validators.

Modelling conventions.  The source works on JavaScript numbers.  The
centroid and the validators use only field operations and comparisons, so
they are embedded over `ℚ` (centroid) and over `ℝ` (validators, which share
the coordinate types of the conversions); the two projection routines and
the Haversine distance use transcendental functions and are embedded over
`ℝ` with `Real.sin`, `Real.cos`, `Real.tan`, `Real.sqrt`, `Real.arctan` and
`Real.pi`.  JavaScript's division by zero (yielding non-finite doubles) is
represented by Lean's total division.  String handling (the zone
designator) is embedded exactly, character by character.
-/

namespace CoordinateUtils

/-- Geographic (WGS84) coordinate, source interface `GeographicCoordinates`. -/
structure GeographicCoordinates where
  lat : ℝ
  lng : ℝ

/-- UTM coordinate, source interface `UTMCoordinates`. -/
structure UTMCoordinates where
  x : ℝ
  y : ℝ
  zone : String

/-- Polygon vertex, source interface `PolygonPoint`.  The centroid routine
uses only field operations, so its vertices are modelled exactly over `ℚ`. -/
structure PolygonPoint where
  lat : ℚ
  lng : ℚ
deriving DecidableEq, Repr

/-- Vertex access `polygon[i]` of the source loop; the loop only ever reads
indices below `polygon.length`, so the default value is never relevant. -/
def ptAt (polygon : List PolygonPoint) (i : ℕ) : PolygonPoint :=
  polygon.getD i ⟨0, 0⟩

/-- Cross term of one loop iteration of `calculatePolygonCentroid`:
`a = xi * yj - xj * yi` with `x = lng`, `y = lat` and `j = (i + 1) % length`. -/
def crossA (polygon : List PolygonPoint) (i : ℕ) : ℚ :=
  (ptAt polygon i).lng * (ptAt polygon ((i + 1) % polygon.length)).lat -
    (ptAt polygon ((i + 1) % polygon.length)).lng * (ptAt polygon i).lat

/-- Accumulated `area` variable of the source loop (before the `* 0.5`). -/
def shoelaceSumA (polygon : List PolygonPoint) : ℚ :=
  ∑ i in Finset.range polygon.length, crossA polygon i

/-- Accumulated `centroidLat` variable of the source loop:
`centroidLat += (yi + yj) * a`. -/
def shoelaceSumLat (polygon : List PolygonPoint) : ℚ :=
  ∑ i in Finset.range polygon.length,
    ((ptAt polygon i).lat + (ptAt polygon ((i + 1) % polygon.length)).lat) * crossA polygon i

/-- Accumulated `centroidLng` variable of the source loop:
`centroidLng += (xi + xj) * a`. -/
def shoelaceSumLng (polygon : List PolygonPoint) : ℚ :=
  ∑ i in Finset.range polygon.length,
    ((ptAt polygon i).lng + (ptAt polygon ((i + 1) % polygon.length)).lng) * crossA polygon i

/-- Source `CoordinateUtils.calculatePolygonCentroid`.  The JavaScript
`throw new Error(...)` on an empty polygon is modelled as `Except.error`. -/
def calculatePolygonCentroid (polygon : List PolygonPoint) :
    Except String PolygonPoint :=
  if polygon.length = 0 then
    Except.error "Polygon must have at least one point"
  else if polygon.length = 1 then
    Except.ok (polygon.getD 0 ⟨0, 0⟩)
  else
    let area := shoelaceSumA polygon * (1 / 2)
    Except.ok
      { lat := shoelaceSumLat polygon / (6 * area)
        lng := shoelaceSumLng polygon / (6 * area) }

/-- Signed-area centroid formula as stated in the specification: signed area
is half the accumulated cross sum, and each centroid component is `1/(6*area)`
times the corresponding accumulated sum. -/
def specSignedAreaCentroid (polygon : List PolygonPoint) : PolygonPoint :=
  let area := (1 / 2) * shoelaceSumA polygon
  { lat := (1 / (6 * area)) * shoelaceSumLat polygon
    lng := (1 / (6 * area)) * shoelaceSumLng polygon }

/-- Generic cyclic pair sum: the shape shared by the three accumulators of
the centroid loop, abstracting over the per-edge summand. -/
def vertexPairSum (polygon : List PolygonPoint) (f : PolygonPoint → PolygonPoint → ℚ) : ℚ :=
  ∑ i in Finset.range polygon.length,
    f (ptAt polygon i) (ptAt polygon ((i + 1) % polygon.length))

/-- Numeric value of a decimal digit character, as used by JavaScript
`parseInt` on a digit-only string. -/
def digitVal (c : Char) : ℕ := c.toNat - 48

/-- Value of a list of decimal digit characters, `parseInt` on the matched
digit group. -/
def digitsToNat (ds : List Char) : ℕ := ds.foldl (fun acc d => 10 * acc + digitVal d) 0

/-- Character class `[NS]` with the case-insensitive flag, as in both zone
regular expressions of the source. -/
def isNSChar (c : Char) : Bool := c = 'N' || c = 'S' || c = 'n' || c = 's'

/-- Unanchored search for the pattern of one or more digits followed by a
letter of `[NS]` (case-insensitive), the semantics of the source call
`utm.zone.match(/(\d+)([NS])/i)`: scanning positions left to right, a
position matches when it starts a maximal digit run whose following
character is in the class; the returned groups are that digit run and that
character. -/
def zoneSearch : List Char → Option (List Char × Char)
  | [] => none
  | c :: cs =>
    if c.isDigit then
      match (c :: cs).dropWhile Char.isDigit with
      | t :: _ =>
        if isNSChar t then some ((c :: cs).takeWhile Char.isDigit, t)
        else zoneSearch cs
      | [] => zoneSearch cs
    else zoneSearch cs

/-- Zone resolution of `utmToGeographic` (source lines 22 to 40): the two
special cases `19Q`/`19N` and `20N`, then the generic `(\d+)([NS])/i`
search, then the Dominican Republic default of zone 19 north. -/
def resolveZone (zone : String) : ℕ × Bool :=
  if zone = "19Q" ∨ zone = "19N" then (19, true)
  else if zone = "20N" then (20, true)
  else
    match zoneSearch zone.data with
    | none => (19, true)
    | some (ds, c) => (digitsToNat ds, c.toUpper = 'N')

/-- Numeric core of `utmToGeographic` (source lines 42 to 91), a direct
transliteration of the inverse Transverse Mercator series over `ℝ`. -/
noncomputable def utmCore (zoneNumber : ℕ) (isNorthern : Bool) (utmx utmy : ℝ) :
    GeographicCoordinates :=
  let k0 : ℝ := 0.9996
  let e : ℝ := 0.00669438
  let e1sq : ℝ := 0.00673949674228
  let n : ℝ := (1 - Real.sqrt (1 - e)) / (1 + Real.sqrt (1 - e))
  let a : ℝ := 6378137
  let x := utmx - 500000
  let y := if isNorthern then utmy else utmy - 10000000
  let lonOrigin : ℝ := ((zoneNumber : ℝ) - 1) * 6 - 180 + 3
  let M := y / k0
  let mu := M / (a * (1 - e / 4 - 3 * e * e / 64 - 5 * e ^ 3 / 256))
  let phi1Rad := mu +
    (3 * n / 2 - 27 * n ^ 3 / 32) * Real.sin (2 * mu) +
    (21 * n * n / 16 - 55 * n ^ 4 / 32) * Real.sin (4 * mu) +
    (151 * n ^ 3 / 96) * Real.sin (6 * mu)
  let phi1 := phi1Rad
  let rho1Calc := a * (1 - e) / (1 - e * Real.sin phi1 * Real.sin phi1) ^ (1.5 : ℝ)
  let nu1Calc := a / Real.sqrt (1 - e * Real.sin phi1 * Real.sin phi1)
  let T1 := Real.tan phi1 * Real.tan phi1
  let C1 := e1sq * Real.cos phi1 * Real.cos phi1
  let D := x / (nu1Calc * k0)
  let lat := phi1Rad - (nu1Calc * Real.tan phi1 / rho1Calc) *
    (D * D / 2 - (5 + 3 * T1 + 10 * C1 - 4 * C1 * C1 - 9 * e1sq) * D ^ 4 / 24 +
      (61 + 90 * T1 + 298 * C1 + 45 * T1 * T1 - 252 * e1sq - 3 * C1 * C1) * D ^ 6 / 720)
  let lng := (lonOrigin * Real.pi / 180) +
    (D - (1 + 2 * T1 + C1) * D ^ 3 / 6 +
      (5 - 2 * C1 + 28 * T1 - 3 * C1 * C1 + 8 * e1sq + 24 * T1 * T1) * D ^ 5 / 120) /
      Real.cos phi1
  { lat := lat * 180 / Real.pi, lng := lng * 180 / Real.pi }

/-- Source `CoordinateUtils.utmToGeographic`: zone resolution followed by
the numeric inverse projection. -/
noncomputable def utmToGeographic (utm : UTMCoordinates) : GeographicCoordinates :=
  utmCore (resolveZone utm.zone).1 (resolveZone utm.zone).2 utm.x utm.y

/-- UTM zone number from longitude, source `Math.floor((coords.lng + 180) / 6) + 1`. -/
noncomputable def utmZoneNumber (lng : ℝ) : ℤ := ⌊(lng + 180) / 6⌋ + 1

/-- Raw (unrounded) UTM easting of `geographicToUtm` (source lines 96 to 121). -/
noncomputable def utmEastingRaw (coords : GeographicCoordinates) : ℝ :=
  let lat := coords.lat * Real.pi / 180
  let lon := coords.lng * Real.pi / 180
  let lonOrigin := ((utmZoneNumber coords.lng : ℝ) - 1) * 6 - 180 + 3
  let lonOriginRad := lonOrigin * Real.pi / 180
  let a : ℝ := 6378137
  let eccSquared : ℝ := 0.00669438
  let k0 : ℝ := 0.9996
  let eccPrimeSquared := eccSquared / (1 - eccSquared)
  let N := a / Real.sqrt (1 - eccSquared * Real.sin lat * Real.sin lat)
  let T := Real.tan lat * Real.tan lat
  let C := eccPrimeSquared * Real.cos lat * Real.cos lat
  let A := Real.cos lat * (lon - lonOriginRad)
  k0 * N * (A + (1 - T + C) * A ^ 3 / 6 +
    (5 - 18 * T + T * T + 72 * C - 58 * eccPrimeSquared) * A ^ 5 / 120) + 500000

/-- Raw (unrounded, northern-hemisphere) UTM northing of `geographicToUtm`
(source lines 115 to 124), before the southern false-northing correction. -/
noncomputable def utmNorthingRaw (coords : GeographicCoordinates) : ℝ :=
  let lat := coords.lat * Real.pi / 180
  let lon := coords.lng * Real.pi / 180
  let lonOrigin := ((utmZoneNumber coords.lng : ℝ) - 1) * 6 - 180 + 3
  let lonOriginRad := lonOrigin * Real.pi / 180
  let a : ℝ := 6378137
  let eccSquared : ℝ := 0.00669438
  let k0 : ℝ := 0.9996
  let eccPrimeSquared := eccSquared / (1 - eccSquared)
  let N := a / Real.sqrt (1 - eccSquared * Real.sin lat * Real.sin lat)
  let T := Real.tan lat * Real.tan lat
  let C := eccPrimeSquared * Real.cos lat * Real.cos lat
  let A := Real.cos lat * (lon - lonOriginRad)
  let M := a * ((1 - eccSquared / 4 - 3 * eccSquared * eccSquared / 64 -
      5 * eccSquared ^ 3 / 256) * lat -
    (3 * eccSquared / 8 + 3 * eccSquared * eccSquared / 32 +
      45 * eccSquared ^ 3 / 1024) * Real.sin (2 * lat) +
    (15 * eccSquared * eccSquared / 256 + 45 * eccSquared ^ 3 / 1024) * Real.sin (4 * lat) -
    (35 * eccSquared ^ 3 / 3072) * Real.sin (6 * lat))
  k0 * (M + N * Real.tan lat * (A * A / 2 + (5 - T + 9 * C + 4 * C * C) * A ^ 4 / 24 +
    (61 - 58 * T + T * T + 600 * C - 330 * eccPrimeSquared) * A ^ 6 / 720))

/-- JavaScript `Math.round`: the floor of the argument plus one half. -/
noncomputable def jsRound (x : ℝ) : ℝ := (⌊x + 1 / 2⌋ : ℤ)

/-- Source `CoordinateUtils.geographicToUtm` (lines 95 to 136). -/
noncomputable def geographicToUtm (coords : GeographicCoordinates) : UTMCoordinates :=
  let zoneNumber := utmZoneNumber coords.lng
  let hemisphere := if 0 ≤ coords.lat then "N" else "S"
  let utmNorthing :=
    if hemisphere = "S" then utmNorthingRaw coords + 10000000 else utmNorthingRaw coords
  { x := jsRound (utmEastingRaw coords)
    y := jsRound utmNorthing
    zone := toString zoneNumber ++ hemisphere }

/-- JavaScript `Math.atan2` on real arguments. -/
noncomputable def atan2 (y x : ℝ) : ℝ :=
  if 0 < x then Real.arctan (y / x)
  else if x < 0 ∧ 0 ≤ y then Real.arctan (y / x) + Real.pi
  else if x < 0 ∧ y < 0 then Real.arctan (y / x) - Real.pi
  else if x = 0 ∧ 0 < y then Real.pi / 2
  else if x = 0 ∧ y < 0 then -(Real.pi / 2)
  else 0

/-- Source `CoordinateUtils.calculateDistance` (lines 176 to 189), the
Haversine formula with Earth radius 6371000 m. -/
noncomputable def calculateDistance (point1 point2 : GeographicCoordinates) : ℝ :=
  let R : ℝ := 6371000
  let lat1Rad := point1.lat * Real.pi / 180
  let lat2Rad := point2.lat * Real.pi / 180
  let deltaLat := (point2.lat - point1.lat) * Real.pi / 180
  let deltaLng := (point2.lng - point1.lng) * Real.pi / 180
  let a := Real.sin (deltaLat / 2) * Real.sin (deltaLat / 2) +
    Real.cos lat1Rad * Real.cos lat2Rad *
      Real.sin (deltaLng / 2) * Real.sin (deltaLng / 2)
  let c := 2 * atan2 (Real.sqrt a) (Real.sqrt (1 - a))
  R * c

/-- Anchored match `^(\d{1,2})[NS]$/i` of `validateUtmCoordinates` together
with the subsequent `parseInt` of the digit group: the whole string must be
one or two digits followed by a letter of `[NS]` (case-insensitive). -/
def zoneAnchoredMatch : List Char → Option ℕ
  | [d, c] => if d.isDigit && isNSChar c then some (digitVal d) else none
  | [d1, d2, c] =>
    if d1.isDigit && d2.isDigit && isNSChar c then some (10 * digitVal d1 + digitVal d2)
    else none
  | _ => none

/-- Source `CoordinateUtils.validateUtmCoordinates` (lines 192 to 209). -/
noncomputable def validateUtmCoordinates (utm : UTMCoordinates) : Bool :=
  match zoneAnchoredMatch utm.zone.data with
  | none => false
  | some zoneNumber =>
    if zoneNumber < 1 ∨ 60 < zoneNumber then false
    else if utm.x < 160000 ∨ 840000 < utm.x then false
    else if utm.y < 0 ∨ 10000000 < utm.y then false
    else true

/-- Source `CoordinateUtils.validateGeographicCoordinates` (lines 212 to 215). -/
noncomputable def validateGeographicCoordinates (coords : GeographicCoordinates) : Bool :=
  decide (-90 ≤ coords.lat ∧ coords.lat ≤ 90 ∧ -180 ≤ coords.lng ∧ coords.lng ≤ 180)

lemma shoelaceSumA_eq_vertexPairSum (polygon : List PolygonPoint) :
    shoelaceSumA polygon =
      vertexPairSum polygon (fun pi pj => pi.lng * pj.lat - pj.lng * pi.lat) := rfl

lemma shoelaceSumLat_eq_vertexPairSum (polygon : List PolygonPoint) :
    shoelaceSumLat polygon =
      vertexPairSum polygon
        (fun pi pj => (pi.lat + pj.lat) * (pi.lng * pj.lat - pj.lng * pi.lat)) := rfl

lemma shoelaceSumLng_eq_vertexPairSum (polygon : List PolygonPoint) :
    shoelaceSumLng polygon =
      vertexPairSum polygon
        (fun pi pj => (pi.lng + pj.lng) * (pi.lng * pj.lat - pj.lng * pi.lat)) := rfl

lemma ptAt_rotate (p : List PolygonPoint) (k i : ℕ) (h : i < p.length) :
    ptAt (p.rotate k) i = ptAt p ((i + k) % p.length) := by
  have hl : i < (p.rotate k).length := by simpa [List.length_rotate] using h
  have hm : (i + k) % p.length < p.length := Nat.mod_lt _ (by omega)
  rw [ptAt, ptAt, List.getD_eq_getElem _ _ hl, List.getD_eq_getElem _ _ hm, List.getElem_rotate]

lemma sum_range_cycle (G : ℕ → ℚ) (n : ℕ) (hn : 1 ≤ n) :
    ∑ i in Finset.range n, G ((i + 1) % n) = ∑ i in Finset.range n, G i := by
  obtain ⟨m, rfl⟩ : ∃ m, n = m + 1 := ⟨n - 1, by omega⟩
  rw [Finset.sum_range_succ, Finset.sum_range_succ', Nat.mod_self]
  congr 1
  apply Finset.sum_congr rfl
  intro i hi
  have hi1 : i + 1 < m + 1 := by
    have := Finset.mem_range.mp hi
    omega
  rw [Nat.mod_eq_of_lt hi1]

lemma vertexPairSum_rotate_one (q : List PolygonPoint) (f : PolygonPoint → PolygonPoint → ℚ) :
    vertexPairSum (q.rotate 1) f = vertexPairSum q f := by
  rcases Nat.eq_zero_or_pos q.length with h0 | hpos
  · rw [List.length_eq_zero.mp h0]
    rfl
  · unfold vertexPairSum
    rw [List.length_rotate]
    have hstep : ∀ i ∈ Finset.range q.length,
        f (ptAt (q.rotate 1) i) (ptAt (q.rotate 1) ((i + 1) % q.length)) =
          f (ptAt q ((i + 1) % q.length)) (ptAt q (((i + 1) % q.length + 1) % q.length)) := by
      intro i hi
      have hilt : i < q.length := Finset.mem_range.mp hi
      have hmlt : (i + 1) % q.length < q.length := Nat.mod_lt _ (by omega)
      rw [ptAt_rotate q 1 i hilt, ptAt_rotate q 1 _ hmlt]
    rw [Finset.sum_congr rfl hstep]
    exact sum_range_cycle
      (fun j => f (ptAt q j) (ptAt q ((j + 1) % q.length))) q.length hpos

lemma vertexPairSum_rotate (p : List PolygonPoint) (f : PolygonPoint → PolygonPoint → ℚ)
    (k : ℕ) : vertexPairSum (p.rotate k) f = vertexPairSum p f := by
  induction k with
  | zero => rw [List.rotate_zero]
  | succ k ih =>
    have : p.rotate (k + 1) = (p.rotate k).rotate 1 := by
      rw [List.rotate_rotate, Nat.add_comm]
    rw [this, vertexPairSum_rotate_one, ih]

lemma shoelaceSumA_rotate (p : List PolygonPoint) (k : ℕ) :
    shoelaceSumA (p.rotate k) = shoelaceSumA p := by
  rw [shoelaceSumA_eq_vertexPairSum, shoelaceSumA_eq_vertexPairSum, vertexPairSum_rotate]

lemma shoelaceSumLat_rotate (p : List PolygonPoint) (k : ℕ) :
    shoelaceSumLat (p.rotate k) = shoelaceSumLat p := by
  rw [shoelaceSumLat_eq_vertexPairSum, shoelaceSumLat_eq_vertexPairSum, vertexPairSum_rotate]

lemma shoelaceSumLng_rotate (p : List PolygonPoint) (k : ℕ) :
    shoelaceSumLng (p.rotate k) = shoelaceSumLng p := by
  rw [shoelaceSumLng_eq_vertexPairSum, shoelaceSumLng_eq_vertexPairSum, vertexPairSum_rotate]

lemma digitsToNat_singleton (a : Char) : digitsToNat [a] = digitVal a := by
  simp [digitsToNat]

lemma digitsToNat_pair (a b : Char) : digitsToNat [a, b] = 10 * digitVal a + digitVal b := by
  simp [digitsToNat]

/-- Characterization of the anchored zone match: it succeeds exactly on
strings of one or two digits followed by one letter of `[NS]`
(case-insensitive), and returns the value of the digit group. -/
lemma zoneAnchoredMatch_eq_some_iff (l : List Char) (zn : ℕ) :
    zoneAnchoredMatch l = some zn ↔
      ∃ ds c, l = ds ++ [c] ∧ ds ≠ [] ∧ ds.length ≤ 2 ∧ (∀ d ∈ ds, d.isDigit = true) ∧
        isNSChar c = true ∧ digitsToNat ds = zn := by
  rcases l with - | ⟨a, - | ⟨b, - | ⟨c3, - | ⟨d4, rest⟩⟩⟩⟩
  · simp only [zoneAnchoredMatch]
    constructor
    · intro h; cases h
    · rintro ⟨ds, c, hl, -, -, -, -, -⟩
      have := congrArg List.length hl
      simp at this
  · simp only [zoneAnchoredMatch]
    constructor
    · intro h; cases h
    · rintro ⟨ds, c, hl, hne, -, -, -, -⟩
      rcases ds with - | ⟨x, ds2⟩
      · exact absurd rfl hne
      · have := congrArg List.length hl
        simp at this
  · constructor
    · intro h
      simp only [zoneAnchoredMatch] at h
      by_cases hcond : (a.isDigit && isNSChar b) = true
      · rw [if_pos hcond] at h
        obtain ⟨hda, hnb⟩ : a.isDigit = true ∧ isNSChar b = true := by simpa using hcond
        refine ⟨[a], b, rfl, by simp, by simp, ?_, hnb, ?_⟩
        · intro d hd
          rw [List.mem_singleton.mp hd]
          exact hda
        · rw [digitsToNat_singleton]
          exact Option.some.inj h
      · rw [if_neg hcond] at h
        cases h
    · rintro ⟨ds, c, hl, hne, hlen, hdig, hns, hval⟩
      rcases ds with - | ⟨x, ds2⟩
      · exact absurd rfl hne
      rcases ds2 with - | ⟨y, ds3⟩
      · obtain ⟨hax, hbc⟩ : a = x ∧ b = c := by simpa using hl
        subst hax; subst hbc
        simp only [zoneAnchoredMatch]
        rw [if_pos]
        · rw [← hval, digitsToNat_singleton]
        · simp [hdig a (by simp), hns]
      · exfalso
        have := congrArg List.length hl
        simp at this
  · constructor
    · intro h
      simp only [zoneAnchoredMatch] at h
      by_cases hcond : (a.isDigit && b.isDigit && isNSChar c3) = true
      · rw [if_pos hcond] at h
        obtain ⟨hda, hdb, hnc⟩ : a.isDigit = true ∧ b.isDigit = true ∧ isNSChar c3 = true := by
          simpa [Bool.and_assoc] using hcond
        refine ⟨[a, b], c3, rfl, by simp, by simp, ?_, hnc, ?_⟩
        · intro d hd
          rcases List.mem_pair.mp hd with h1 | h1 <;> rw [h1] <;> assumption
        · rw [digitsToNat_pair]
          exact Option.some.inj h
      · rw [if_neg hcond] at h
        cases h
    · rintro ⟨ds, c, hl, hne, hlen, hdig, hns, hval⟩
      rcases ds with - | ⟨x, ds2⟩
      · exact absurd rfl hne
      rcases ds2 with - | ⟨y, ds3⟩
      · exfalso
        have := congrArg List.length hl
        simp at this
      rcases ds3 with - | ⟨z, ds4⟩
      · obtain ⟨hax, hby, hcc⟩ : a = x ∧ b = y ∧ c3 = c := by simpa using hl
        subst hax; subst hby; subst hcc
        simp only [zoneAnchoredMatch]
        rw [if_pos]
        · rw [← hval, digitsToNat_pair]
        · simp [hdig a (by simp), hdig b (by simp), hns]
      · exfalso
        simp at hlen
  · simp only [zoneAnchoredMatch]
    constructor
    · intro h; cases h
    · rintro ⟨ds, c, hl, hne, hlen, -, -, -⟩
      have hlength := congrArg List.length hl
      simp at hlength
      omega

/-- Bool-level unfolding of `validateUtmCoordinates` into its four range
conditions. -/
lemma validateUtm_eq_true_iff (utm : UTMCoordinates) :
    validateUtmCoordinates utm = true ↔
      (∃ zn, zoneAnchoredMatch utm.zone.data = some zn ∧ 1 ≤ zn ∧ zn ≤ 60) ∧
        160000 ≤ utm.x ∧ utm.x ≤ 840000 ∧ 0 ≤ utm.y ∧ utm.y ≤ 10000000 := by
  unfold validateUtmCoordinates
  cases h : zoneAnchoredMatch utm.zone.data with
  | none => simp
  | some zn =>
    show (if zn < 1 ∨ 60 < zn then false
        else if utm.x < 160000 ∨ 840000 < utm.x then false
        else if utm.y < 0 ∨ 10000000 < utm.y then false else true) = true ↔ _
    by_cases h1 : zn < 1 ∨ 60 < zn
    · rw [if_pos h1]
      simp only [Bool.false_eq_true, false_iff]
      rintro ⟨⟨zn2, hzn2, hlo, hhi⟩, -⟩
      obtain rfl : zn = zn2 := Option.some.inj hzn2
      omega
    · rw [if_neg h1]
      by_cases h2 : utm.x < 160000 ∨ 840000 < utm.x
      · rw [if_pos h2]
        simp only [Bool.false_eq_true, false_iff]
        rintro ⟨-, hx1, hx2, -⟩
        rcases h2 with h2 | h2 <;> linarith
      · rw [if_neg h2]
        by_cases h3 : utm.y < 0 ∨ 10000000 < utm.y
        · rw [if_pos h3]
          simp only [Bool.false_eq_true, false_iff]
          rintro ⟨-, -, -, hy1, hy2⟩
          rcases h3 with h3 | h3 <;> linarith
        · rw [if_neg h3]
          simp only [true_iff]
          push_neg at h1 h2 h3
          exact ⟨⟨zn, rfl, h1.1, h1.2⟩, h2.1, h2.2, h3.1, h3.2⟩

/-- Helper: JavaScript atan2 of 0 and 1 is 0. -/
lemma atan2_zero_one : atan2 0 1 = 0 := by
  unfold atan2
  rw [if_pos (by norm_num : (0 : ℝ) < 1), zero_div, Real.arctan_zero]

/-- C5: `validateUtmCoordinates` returns true exactly when the zone string
is one or two digits followed by `N` or `S` (case-insensitive, anchored)
with the parsed zone number in `[1, 60]`, the easting lies in
`[160000, 840000]` and the northing in `[0, 10000000]`; in particular
easting 160000 with zone `19N` is valid and easting 159999 is not. -/
theorem C5_validate_utm_iff :
    (∀ utm : UTMCoordinates,
        validateUtmCoordinates utm = true ↔
          (∃ ds c, utm.zone.data = ds ++ [c] ∧ ds ≠ [] ∧ ds.length ≤ 2 ∧
              (∀ d ∈ ds, d.isDigit = true) ∧ isNSChar c = true ∧
              1 ≤ digitsToNat ds ∧ digitsToNat ds ≤ 60) ∧
            160000 ≤ utm.x ∧ utm.x ≤ 840000 ∧ 0 ≤ utm.y ∧ utm.y ≤ 10000000) ∧
      validateUtmCoordinates ⟨160000, 0, "19N"⟩ = true ∧
      validateUtmCoordinates ⟨159999, 0, "19N"⟩ = false := by
  refine ⟨fun utm => ?_, ?_, ?_⟩
  · rw [validateUtm_eq_true_iff]
    constructor
    · rintro ⟨⟨zn, hm, hlo, hhi⟩, hranges⟩
      obtain ⟨ds, c, hdc, hne, hlen, hdig, hns, hval⟩ :=
        (zoneAnchoredMatch_eq_some_iff _ _).mp hm
      exact ⟨⟨ds, c, hdc, hne, hlen, hdig, hns, by omega, by omega⟩, hranges⟩
    · rintro ⟨⟨ds, c, hdc, hne, hlen, hdig, hns, hlo, hhi⟩, hranges⟩
      exact ⟨⟨digitsToNat ds,
        (zoneAnchoredMatch_eq_some_iff _ _).mpr ⟨ds, c, hdc, hne, hlen, hdig, hns, rfl⟩,
        hlo, hhi⟩, hranges⟩
  · rw [validateUtm_eq_true_iff]
    exact ⟨⟨19, rfl, by omega, by omega⟩, le_refl _, by norm_num, le_refl _, by norm_num⟩
  · cases hb : validateUtmCoordinates ⟨159999, 0, "19N"⟩ with
    | false => rfl
    | true =>
      exfalso
      obtain ⟨-, hx, -⟩ := (validateUtm_eq_true_iff _).mp hb
      norm_num at hx

/-- C6: for every easting and northing, `validateUtmCoordinates` rejects
zone `19Q` (its band letter does not match `[NS]`), even though
`utmToGeographic` resolves `19Q` to zone 19 north exactly as it does `19N`. -/
theorem C6_band_letter_mismatch :
    (∀ x y : ℝ, validateUtmCoordinates ⟨x, y, "19Q"⟩ = false) ∧
      resolveZone "19Q" = (19, true) ∧
      ∀ x y : ℝ, utmToGeographic ⟨x, y, "19Q"⟩ = utmToGeographic ⟨x, y, "19N"⟩ :=
  ⟨fun _ _ => rfl, rfl, fun _ _ => rfl⟩

/-- C3: `calculatePolygonCentroid` signals an error on the empty polygon,
returns a single-point polygon's point unchanged, and on every polygon with
at least two points follows the signed-area centroid formula. -/
theorem C3_centroid_edge_cases :
    calculatePolygonCentroid ([] : List PolygonPoint) =
        Except.error "Polygon must have at least one point" ∧
      (∀ q : PolygonPoint, calculatePolygonCentroid [q] = Except.ok q) ∧
      ∀ p : List PolygonPoint, 2 ≤ p.length →
        calculatePolygonCentroid p = Except.ok (specSignedAreaCentroid p) := by
  refine ⟨rfl, fun q => rfl, fun p hp => ?_⟩
  have h0 : ¬ p.length = 0 := by omega
  have h1 : ¬ p.length = 1 := by omega
  simp only [calculatePolygonCentroid, specSignedAreaCentroid, if_neg h0, if_neg h1,
    Except.ok.injEq, PolygonPoint.mk.injEq]
  constructor <;> ring

/-- Witness for C3 on the concrete triangle (0,0), (0,2), (2,0). -/
theorem C3_centroid_edge_cases_witness :
    2 ≤ ([⟨0, 0⟩, ⟨0, 2⟩, ⟨2, 0⟩] : List PolygonPoint).length ∧
      calculatePolygonCentroid [⟨0, 0⟩, ⟨0, 2⟩, ⟨2, 0⟩] =
        Except.ok (specSignedAreaCentroid [⟨0, 0⟩, ⟨0, 2⟩, ⟨2, 0⟩]) :=
  ⟨by decide, C3_centroid_edge_cases.2.2 _ (by decide)⟩

/-- C4: every two-point polygon has accumulated shoelace area exactly zero,
and every polygon with at least two points whose accumulated shoelace area
is zero reaches the final division with a zero denominator and is returned
as an ordinary value (no error is signalled): both centroid components are
divisions by zero. -/
theorem C4_zero_area_division :
    (∀ a b : PolygonPoint, shoelaceSumA [a, b] = 0) ∧
      ∀ p : List PolygonPoint, 2 ≤ p.length → shoelaceSumA p = 0 →
        calculatePolygonCentroid p =
          Except.ok { lat := shoelaceSumLat p / 0, lng := shoelaceSumLng p / 0 } := by
  constructor
  · intro a b
    norm_num [shoelaceSumA, crossA, ptAt, Finset.sum_range_succ]
    ring
  · intro p hp hA
    have h0 : ¬ p.length = 0 := by omega
    have h1 : ¬ p.length = 1 := by omega
    simp only [calculatePolygonCentroid, if_neg h0, if_neg h1, hA, Except.ok.injEq,
      PolygonPoint.mk.injEq]
    norm_num

/-- Witness for C4 on the concrete degenerate two-point polygon (0,0), (1,1). -/
theorem C4_zero_area_division_witness :
    2 ≤ ([⟨0, 0⟩, ⟨1, 1⟩] : List PolygonPoint).length ∧
      calculatePolygonCentroid [⟨0, 0⟩, ⟨1, 1⟩] =
        Except.ok
          { lat := shoelaceSumLat [⟨0, 0⟩, ⟨1, 1⟩] / 0
            lng := shoelaceSumLng [⟨0, 0⟩, ⟨1, 1⟩] / 0 } :=
  ⟨by decide, C4_zero_area_division.2 _ (by decide) (C4_zero_area_division.1 ⟨0, 0⟩ ⟨1, 1⟩)⟩

/-- C9: for every polygon with at least two points and every cyclic rotation
of its vertex list, `calculatePolygonCentroid` returns exactly the same
centroid (exact rational arithmetic). -/
theorem C9_centroid_rotation_invariant (p : List PolygonPoint) (k : ℕ) (hp : 2 ≤ p.length) :
    calculatePolygonCentroid (p.rotate k) = calculatePolygonCentroid p := by
  have hlen : (p.rotate k).length = p.length := List.length_rotate p k
  have h0 : ¬ p.length = 0 := by omega
  have h1 : ¬ p.length = 1 := by omega
  simp only [calculatePolygonCentroid, hlen, if_neg h0, if_neg h1,
    shoelaceSumA_rotate, shoelaceSumLat_rotate, shoelaceSumLng_rotate]

/-- Witness for C9 on the concrete triangle (0,0), (0,1), (1,0) rotated by one. -/
theorem C9_centroid_rotation_invariant_witness :
    2 ≤ ([⟨0, 0⟩, ⟨0, 1⟩, ⟨1, 0⟩] : List PolygonPoint).length ∧
      calculatePolygonCentroid (([⟨0, 0⟩, ⟨0, 1⟩, ⟨1, 0⟩] : List PolygonPoint).rotate 1) =
        calculatePolygonCentroid [⟨0, 0⟩, ⟨0, 1⟩, ⟨1, 0⟩] :=
  ⟨by decide, C9_centroid_rotation_invariant _ 1 (by decide)⟩

/-- C2: a zone string that is none of the three special designators and
contains no digits-then-`[NS]` pattern makes `utmToGeographic` fall back to
zone 19 north: no failure, and the result equals the `19N` result exactly;
in particular zones `19Q` and `19N` at easting 530478, northing 2042873
give latitude and longitude within 0.0001 degrees of each other. -/
theorem C2_zone_fallback :
    (∀ (x y : ℝ) (z : String), z ≠ "19Q" → z ≠ "19N" → z ≠ "20N" →
        zoneSearch z.data = none →
        utmToGeographic ⟨x, y, z⟩ = utmToGeographic ⟨x, y, "19N"⟩) ∧
      |(utmToGeographic ⟨530478, 2042873, "19Q"⟩).lat -
          (utmToGeographic ⟨530478, 2042873, "19N"⟩).lat| ≤ 0.0001 ∧
      |(utmToGeographic ⟨530478, 2042873, "19Q"⟩).lng -
          (utmToGeographic ⟨530478, 2042873, "19N"⟩).lng| ≤ 0.0001 := by
  have hQ : utmToGeographic ⟨(530478 : ℝ), 2042873, "19Q"⟩ =
      utmToGeographic ⟨530478, 2042873, "19N"⟩ := rfl
  refine ⟨fun x y z h1 h2 h3 hs => ?_, ?_, ?_⟩
  · have hr : resolveZone z = (19, true) := by
      unfold resolveZone
      rw [if_neg, if_neg h3, hs]
      rintro (h | h)
      · exact h1 h
      · exact h2 h
    show utmCore (resolveZone z).1 (resolveZone z).2 x y = _
    rw [hr]
    rfl
  · rw [hQ, sub_self, abs_zero]
    norm_num
  · rw [hQ, sub_self, abs_zero]
    norm_num

/-- Witness for C2 at the unparseable zone string `ABC`. -/
theorem C2_zone_fallback_witness :
    ("ABC" ≠ "19Q" ∧ "ABC" ≠ "19N" ∧ "ABC" ≠ "20N" ∧
        zoneSearch ("ABC" : String).data = none) ∧
      utmToGeographic ⟨1, 2, "ABC"⟩ = utmToGeographic ⟨1, 2, "19N"⟩ :=
  ⟨⟨by decide, by decide, by decide, by decide⟩,
    C2_zone_fallback.1 1 2 "ABC" (by decide) (by decide) (by decide) (by decide)⟩

/-- C7: `geographicToUtm` rounds easting and northing to the nearest whole
meter, formats the zone as the zone number followed by the hemisphere
letter, takes the zone number to be floor((lng+180)/6)+1 and the hemisphere
from the sign of the latitude (`N` when the latitude is at least 0), and
adds the 10,000,000 m false northing before rounding exactly when the
hemisphere is southern. -/
theorem C7_geographic_to_utm_shape (g : GeographicCoordinates) :
    (geographicToUtm g).x = jsRound (utmEastingRaw g) ∧
      (geographicToUtm g).y =
        jsRound (utmNorthingRaw g + if 0 ≤ g.lat then 0 else 10000000) ∧
      (geographicToUtm g).zone =
        toString (⌊(g.lng + 180) / 6⌋ + 1 : ℤ) ++ (if 0 ≤ g.lat then "N" else "S") := by
  refine ⟨rfl, ?_, rfl⟩
  by_cases h : 0 ≤ g.lat
  · have hy : (geographicToUtm g).y = jsRound (utmNorthingRaw g) := by
      simp only [geographicToUtm]
      rw [if_pos h, if_neg (by decide : ¬("N" : String) = "S")]
    rw [hy, if_pos h, add_zero]
  · have hy : (geographicToUtm g).y = jsRound (utmNorthingRaw g + 10000000) := by
      simp only [geographicToUtm]
      rw [if_neg h, if_pos rfl]
    rw [hy, if_neg h]

/-- C8: both conversion functions are total over all real-valued inputs,
never consulting the validators: they return a result even on inputs the
validators reject; the out-of-range point latitude 200, longitude 300
fails geographic validation yet converts to a value whose zone string is
`81N`, and a UTM triple with invalid easting, northing and zone fails UTM
validation yet converts without error. -/
theorem C8_conversions_total :
    (∀ utm : UTMCoordinates, ∃ g : GeographicCoordinates, utmToGeographic utm = g) ∧
      (∀ g : GeographicCoordinates, ∃ utm : UTMCoordinates, geographicToUtm g = utm) ∧
      validateGeographicCoordinates ⟨200, 300⟩ = false ∧
      (geographicToUtm ⟨200, 300⟩).zone = "81N" ∧
      validateUtmCoordinates ⟨-50000, 20000000, "99X"⟩ = false ∧
      (∃ g, utmToGeographic ⟨-50000, 20000000, "99X"⟩ = g) := by
  refine ⟨fun utm => ⟨_, rfl⟩, fun g => ⟨_, rfl⟩, ?_, ?_, rfl, ⟨_, rfl⟩⟩
  · unfold validateGeographicCoordinates
    rw [decide_eq_false_iff_not]
    rintro ⟨-, h, -⟩
    norm_num at h
  · show toString (utmZoneNumber (300 : ℝ)) ++ (if (0 : ℝ) ≤ 200 then "N" else "S") = "81N"
    rw [if_pos (by norm_num : (0 : ℝ) ≤ 200)]
    have hz : utmZoneNumber (300 : ℝ) = 81 := by
      unfold utmZoneNumber
      have h480 : ((300 : ℝ) + 180) / 6 = 80 := by norm_num
      rw [h480]
      norm_num
    rw [hz]
    rfl

/-- C10: `calculateDistance` (Haversine with Earth radius 6371000 m) is
symmetric in its two arguments and is zero on two equal points. -/
theorem C10_distance_symm_ident :
    (∀ a b : GeographicCoordinates, calculateDistance a b = calculateDistance b a) ∧
      ∀ a : GeographicCoordinates, calculateDistance a a = 0 := by
  constructor
  · intro p q
    simp only [calculateDistance]
    have e1 : (p.lat - q.lat) * Real.pi / 180 / 2 =
        -((q.lat - p.lat) * Real.pi / 180 / 2) := by ring
    have e2 : (p.lng - q.lng) * Real.pi / 180 / 2 =
        -((q.lng - p.lng) * Real.pi / 180 / 2) := by ring
    rw [e1, e2, Real.sin_neg, Real.sin_neg]
    ring_nf
  · intro p
    simp only [calculateDistance]
    have e1 : (p.lat - p.lat) * Real.pi / 180 / 2 = 0 := by ring
    have e2 : (p.lng - p.lng) * Real.pi / 180 / 2 = 0 := by ring
    rw [e1, e2, Real.sin_zero]
    have ea : (0 : ℝ) * 0 +
        Real.cos (p.lat * Real.pi / 180) * Real.cos (p.lat * Real.pi / 180) * 0 * 0 = 0 := by
      ring
    rw [ea, Real.sqrt_zero, sub_zero, Real.sqrt_one, atan2_zero_one]
    ring

end CoordinateUtils
